import Mathlib

/-!
Verification of the data-2-you Dota 2 data platform against its
natural-language specification.  Python source files are shallowly
embedded: pure functions become Lean functions on `ℚ`/`ℤ`/`ℕ`, Python
`dict`s become insertion-ordered association lists, fallible code
(code that can raise) returns `Option`, and calls into external
libraries (scipy distribution functions, the statistical z-test,
square roots) are taken as function parameters of the embedding.
-/

/-! ## Shared helpers -/

/-- Python `dict` assignment `d[k] = v` on an insertion-ordered
association list: overwrite in place when the key is present,
append otherwise. -/
def assocSet {κ β : Type} [BEq κ] (ps : List (κ × β)) (k : κ) (v : β) :
    List (κ × β) :=
  if ps.any (fun p => p.1 == k) then
    ps.map (fun p => if p.1 == k then (k, v) else p)
  else ps ++ [(k, v)]

/-- Arithmetic mean of a list of rationals (`np.mean`); 0 on the empty
list (the embedding only applies it to nonempty lists). -/
def listMean (l : List ℚ) : ℚ := l.sum / l.length

/-! ## Component 20 — impact score (`test-cases/query.py`,
`calculate_impact_score`) -/

/-- One match-player row, in the attribute-bearing (object) form of
`calculate_impact_score`; the tuple branch reads the same seven fields
at fixed positions. -/
structure PlayerRow where
  role : String
  kills : ℚ
  deaths : ℚ
  assists : ℚ
  hero_damage : ℚ
  tower_damage : ℚ
  hero_healing : ℚ
  gold_per_min : ℚ

/-- Embedding of `calculate_impact_score` from `test-cases/query.py`:
`deaths = max(1.0, deaths)`, KDA/economy/damage/objective components,
then role-dependent weighting (`CORE` versus any other role). -/
def calculate_impact_score (row : PlayerRow) : ℚ :=
  let deaths := max 1 row.deaths
  let kda := (row.kills + row.assists) / deaths
  let economy := row.gold_per_min / 600
  let damage_contribution := row.hero_damage / 30000
  let objective_contribution := row.tower_damage / 10000
  if row.role = "CORE" then
    0.25 * kda + 0.3 * economy + 0.25 * damage_contribution
      + 0.2 * objective_contribution
  else
    let healing := row.hero_healing / 10000
    0.3 * kda + 0.15 * economy + 0.2 * damage_contribution + 0.35 * healing

/-! ## Component 9 — tower/barracks decoders and graph export
(`scripts/transform.py`, `DotaMatch`) -/

/-- Decoded tower flags, one per key of the dict built by
`decode_tower_status`. -/
structure TowerFlags where
  tier1_bot : Bool
  tier2_bot : Bool
  tier3_bot : Bool
  tier1_mid : Bool
  tier2_mid : Bool
  tier3_mid : Bool
  tier1_top : Bool
  tier2_top : Bool
  tier3_top : Bool
  tier4_1 : Bool
  tier4_2 : Bool
deriving DecidableEq

/-- Decoded barracks flags, one per key of the dict built by
`decode_barracks_status`. -/
structure BarracksFlags where
  bot_ranged : Bool
  bot_melee : Bool
  mid_ranged : Bool
  mid_melee : Bool
  top_ranged : Bool
  top_melee : Bool
deriving DecidableEq

/-- The `DotaMatch` ORM row of `scripts/transform.py`, restricted to
the columns the embedded methods read.  Nullable columns are `Option`. -/
structure DotaMatch where
  id : ℤ
  did_radiant_win : Bool
  duration_seconds : ℤ
  start_date_time : ℤ
  end_date_time : ℤ
  tower_status_radiant : ℕ
  tower_status_dire : ℕ
  barracks_status_radiant : ℕ
  barracks_status_dire : ℕ
  first_blood_time : Option ℤ
  lobby_type : String
  game_mode : String
  game_version_id : ℤ
  radiant_networth_leads : Option String
  radiant_experience_leads : Option String
  analysis_outcome : Option String
  league_id : Option ℤ
  series_id : Option ℤ
  radiant_team_id : Option ℤ
  dire_team_id : Option ℤ

/-- Python `bool(status & (1 << k))`. -/
def bitFlag (status : ℕ) (k : ℕ) : Bool := decide (status &&& (1 <<< k) ≠ 0)

/-- Tower-status word selected by `is_radiant`, as in the first line of
`decode_tower_status`. -/
def towerStatusOf (m : DotaMatch) (is_radiant : Bool) : ℕ :=
  if is_radiant then m.tower_status_radiant else m.tower_status_dire

/-- Embedding of `DotaMatch.decode_tower_status`: each flag is
`bool(status & (1 << k))` for its fixed bit position. -/
def decode_tower_status (m : DotaMatch) (is_radiant : Bool) : TowerFlags :=
  let status_value := towerStatusOf m is_radiant
  { tier1_bot := bitFlag status_value 0
    tier2_bot := bitFlag status_value 1
    tier3_bot := bitFlag status_value 2
    tier1_mid := bitFlag status_value 3
    tier2_mid := bitFlag status_value 4
    tier3_mid := bitFlag status_value 5
    tier1_top := bitFlag status_value 6
    tier2_top := bitFlag status_value 7
    tier3_top := bitFlag status_value 8
    tier4_1 := bitFlag status_value 9
    tier4_2 := bitFlag status_value 10 }

/-- Embedding of `DotaMatch.decode_barracks_status`. -/
def decode_barracks_status (m : DotaMatch) (is_radiant : Bool) : BarracksFlags :=
  let status_value :=
    if is_radiant then m.barracks_status_radiant else m.barracks_status_dire
  { bot_ranged := bitFlag status_value 0
    bot_melee := bitFlag status_value 1
    mid_ranged := bitFlag status_value 2
    mid_melee := bitFlag status_value 3
    top_ranged := bitFlag status_value 4
    top_melee := bitFlag status_value 5 }

/-- Core of `get_networth_leads`/`get_experience_leads` from
`scripts/transform.py`: Python truthiness sends a null or empty stored
text to `[]`; `pyEval` stands for the dynamic evaluation of the stored
text (`eval`), returning `none` when that evaluation or the subsequent
enumeration raises (the bare `except` then returns `[]`); otherwise
each element is paired with `i*60` and kept while `i*60` is at most the
match duration. -/
def leadPairs (pyEval : String → Option (List ℤ)) (text : Option String)
    (duration_seconds : ℤ) : List (ℤ × ℤ) :=
  match text with
  | none => []
  | some s =>
    if s = "" then []
    else
      match pyEval s with
      | none => []
      | some leads =>
        (leads.enum.filter
            (fun p => decide ((p.1 : ℤ) * 60 ≤ duration_seconds))).map
          (fun p => ((p.1 : ℤ) * 60, p.2))

/-- Embedding of `DotaMatch.get_networth_leads`. -/
def get_networth_leads (pyEval : String → Option (List ℤ)) (m : DotaMatch) :
    List (ℤ × ℤ) :=
  leadPairs pyEval m.radiant_networth_leads m.duration_seconds

/-- Embedding of `DotaMatch.get_experience_leads`. -/
def get_experience_leads (pyEval : String → Option (List ℤ)) (m : DotaMatch) :
    List (ℤ × ℤ) :=
  leadPairs pyEval m.radiant_experience_leads m.duration_seconds

/-- Sample evaluation function for concrete lead computations: the
stored text parses to the list `[3, 7, 9]`. -/
def sampleLeadEval : String → Option (List ℤ) := fun _ => some [3, 7, 9]

/-- Concrete match used to exercise the lead accessors: 70-second
duration, a parseable stored net-worth series, no experience series. -/
def sampleLeadMatch : DotaMatch :=
  { id := 1, did_radiant_win := true, duration_seconds := 70,
    start_date_time := 0, end_date_time := 70,
    tower_status_radiant := 0, tower_status_dire := 0,
    barracks_status_radiant := 0, barracks_status_dire := 0,
    first_blood_time := none, lobby_type := "", game_mode := "",
    game_version_id := 0, radiant_networth_leads := some "[3, 7, 9]",
    radiant_experience_leads := none, analysis_outcome := none,
    league_id := none, series_id := none,
    radiant_team_id := none, dire_team_id := none }

/-! ## Components 3 and 8 — cache validity
(`scripts/wikisraper.py` `LiquidpediaClient._is_cache_valid`,
`scripts/attributes.py` `scrape_with_cache`) -/

/-- Embedding of `LiquidpediaClient._is_cache_valid` (leading
underscore dropped): a missing file is invalid, a non-positive
configured expiry means never expires, otherwise the file is valid
while `now - mtime < cache_expiry`. -/
def is_cache_valid (cacheExists : Bool) (cache_expiry mtime now : ℚ) : Bool :=
  if !cacheExists then false
  else if cache_expiry ≤ 0 then true
  else decide (now - mtime < cache_expiry)

/-- The cache-age test of `scrape_with_cache` in
`scripts/attributes.py`: the cached file is used only when it exists
and `now - mtime < cache_ttl`; there is no never-expires rule. -/
def scrapeCacheValid (cacheExists : Bool) (cache_ttl mtime now : ℚ) : Bool :=
  cacheExists && decide (now - mtime < cache_ttl)

/-- Embedding of `scrape_with_cache` result selection: a cached parse
is returned when the age test passes and the cached JSON parses;
otherwise (including corrupt cache) a fresh scrape result is returned.
The write-back of a successful scrape is file I/O outside this model. -/
def scrape_with_cache {Data : Type} (cacheExists : Bool)
    (cache_ttl mtime now : ℚ) (cachedParse : Option Data)
    (scrapeResult : Data) : Data :=
  if scrapeCacheValid cacheExists cache_ttl mtime now then
    match cachedParse with
    | some d => d
    | none => scrapeResult
  else scrapeResult

/-! ## Component 8 — rate limiter (`scripts/wikisraper.py`,
`RateLimiter`) -/

/-- State of the `RateLimiter` class (the lock is concurrency plumbing
with no effect on the state transitions). -/
structure RateLimiter where
  base_rate : ℚ
  current_rate : ℚ
  max_rate : ℚ
  backoff_factor : ℚ
  recovery_factor : ℚ
  error_count : ℕ
  error_threshold : ℕ
  last_request_time : ℚ

/-- `RateLimiter.__init__`: `current_rate` starts at `base_rate`, the
error counter at zero. -/
def mkRateLimiter (base_rate max_rate backoff_factor recovery_factor : ℚ)
    (error_threshold : ℕ) : RateLimiter :=
  { base_rate := base_rate, current_rate := base_rate,
    max_rate := max_rate, backoff_factor := backoff_factor,
    recovery_factor := recovery_factor, error_count := 0,
    error_threshold := error_threshold, last_request_time := 0 }

/-- The limiter as constructed in `LiquidpediaClient.__init__`:
`RateLimiter(base_rate=rate_limit, max_rate=rate_limit * 5)` with the
class defaults backoff 1.5, recovery 0.9, threshold 3. -/
def clientRateLimiter (rate_limit : ℚ) : RateLimiter :=
  mkRateLimiter rate_limit (rate_limit * 5) 1.5 0.9 3

/-- `RateLimiter.success`: reset the error counter and, when the
current rate is above base, recover by the recovery factor floored at
the base rate. -/
def RateLimiter.success (s : RateLimiter) : RateLimiter :=
  if s.current_rate > s.base_rate then
    { s with error_count := 0,
             current_rate := max s.base_rate (s.current_rate * s.recovery_factor) }
  else { s with error_count := 0 }

/-- `RateLimiter.error`: bump the error counter; at the threshold,
back off by the backoff factor capped at the maximum rate and reset
the counter. -/
def RateLimiter.error (s : RateLimiter) : RateLimiter :=
  let ec := s.error_count + 1
  if ec ≥ s.error_threshold then
    { s with error_count := 0,
             current_rate := min s.max_rate (s.current_rate * s.backoff_factor) }
  else { s with error_count := ec }

/-! ## Component 16 — optimal-build resolver (`src/resolvers.py`,
`GraphQLResolver.resolve_optimal_build`) -/

/-- The constraint map passed to `resolve_optimal_build`; absent keys
are `none`. -/
structure BuildConstraints where
  maxCost : Option ℤ
  forbiddenItems : Option (List ℤ)

/-- The resolver's result dict. -/
structure OptimalBuildResult where
  items : List ℤ
  expected_win_rate : ℚ
  timing_efficiency : ℚ
deriving DecidableEq

/-- Embedding of `GraphQLResolver._get_item_cost` (leading underscore
dropped): a single-row lookup in the `items` table, 0 when the item is
absent (or the query fails). -/
def get_item_cost (items_table : List (ℤ × ℤ)) (item_id : ℤ) : ℤ :=
  ((items_table.find? (fun r => r.1 == item_id)).map (fun r => r.2)).getD 0

/-- Python truthiness of the `maxCost` entry: present and nonzero. -/
def optIntTruthy : Option ℤ → Bool
  | none => false
  | some v => v != 0

/-- Python truthiness of the `forbiddenItems` entry: present and
nonempty. -/
def optListTruthy : Option (List ℤ) → Bool
  | none => false
  | some l => !l.isEmpty

/-- The loop body of `resolve_optimal_build`: an item survives unless
a truthy `maxCost` is given and its looked-up cost exceeds it, or a
truthy `forbiddenItems` list is given that contains it. -/
def buildItemKept (items_table : List (ℤ × ℤ)) (c : BuildConstraints)
    (item : ℤ × ℚ) : Bool :=
  !(optIntTruthy c.maxCost
      && decide (get_item_cost items_table item.1 > c.maxCost.getD 0)) &&
  !(optListTruthy c.forbiddenItems
      && decide (item.1 ∈ c.forbiddenItems.getD []))

instance : DecidableRel (fun (a b : ℤ × ℚ) => b.2 ≤ a.2) :=
  fun a b => inferInstanceAs (Decidable (b.2 ≤ a.2))

/-- Embedding of `GraphQLResolver.resolve_optimal_build` on the
fetched `hero_items` rows `(item_id, win_rate)` and the `items` cost
table: filter by the constraints, sort by win rate descending (Python
`list.sort` is stable, matched by a stable insertion sort), take the
top 6 item ids, and report `sum(win_rate of top 6) / 6` (0 when
nothing survives) with the fixed 0.8 timing-efficiency placeholder.
The cache read/write and the database round-trips around this
computation are external effects outside the model. -/
def resolve_optimal_build (items_table : List (ℤ × ℤ))
    (hero_items : List (ℤ × ℚ)) (c : BuildConstraints) : OptimalBuildResult :=
  let filtered_items :=
    (hero_items.filter (buildItemKept items_table c)).insertionSort
      (fun a b => b.2 ≤ a.2)
  let optimal_items := (filtered_items.take 6).map (fun item => item.1)
  { items := optimal_items,
    expected_win_rate :=
      if filtered_items.isEmpty then 0
      else ((filtered_items.take 6).map (fun item => item.2)).sum / 6,
    timing_efficiency := 0.8 }

/-- Cost table of the spec's worked example: items 1/2/3 cost
1000/2000/3000. -/
def exampleItemCosts : List (ℤ × ℤ) := [(1, 1000), (2, 2000), (3, 3000)]

/-- Candidate rows of the spec's worked example: win rates
0.6/0.5/0.4 (written as explicit fractions). -/
def exampleHeroItems : List (ℤ × ℚ) :=
  [(1, mkRat 3 5), (2, mkRat 1 2), (3, mkRat 2 5)]

/-- The spec's worked constraint set: `maxCost` 1500, no forbidden
items. -/
def exampleConstraints : BuildConstraints :=
  { maxCost := some 1500, forbiddenItems := none }

/-! ## Component 14 — patch-impact analytics (`schema/models.py`
`AnalyticsEngine.calculate_patch_impact`, and the fully commented-out
revision in `schema/onto/models.py`).  The scipy two-proportion z-test
(`ztest`), the normal upper quantile (`stats.norm.interval(c)[1]`) and
`np.sqrt` are external library calls, taken as function parameters.
Each fetched row is taken as an already-extracted `(wins, matches)`
pair, abstracting database record access. -/

/-- The report dict returned by `calculate_patch_impact`. -/
structure PatchImpactReport where
  hero_id : ℤ
  base_patch : String
  target_patch : String
  win_rate_change : ℚ
  confidence_interval : ℚ
  p_value : ℚ
  significant : Bool
deriving DecidableEq

/-- Embedding of the live `AnalyticsEngine.calculate_patch_impact`
(`schema/models.py`): wins and matches are summed per patch and the
win rates are computed by unguarded division — when either total is
zero the Python division raises `ZeroDivisionError`, modeled as
`none`.  `ztest` is applied to the win/total counts exactly as
`stats.proportions_ztest` is, and `significant` is
`p_value < 1 - confidence_level`. -/
def calculate_patch_impact (ztest : ℤ → ℤ → ℤ → ℤ → ℚ × ℚ)
    (normUpperQuantile sqrtFn : ℚ → ℚ) (hero_id : ℤ)
    (base_patch target_patch : String) (confidence_level : ℚ)
    (base_data target_data : List (ℤ × ℤ)) : Option PatchImpactReport :=
  let base_wins : ℤ := (base_data.map (fun r => r.1)).sum
  let base_total : ℤ := (base_data.map (fun r => r.2)).sum
  let target_wins : ℤ := (target_data.map (fun r => r.1)).sum
  let target_total : ℤ := (target_data.map (fun r => r.2)).sum
  let zp := ztest base_wins target_wins base_total target_total
  if base_total = 0 ∨ target_total = 0 then none
  else
    let base_rate := (base_wins : ℚ) / (base_total : ℚ)
    let target_rate := (target_wins : ℚ) / (target_total : ℚ)
    some { hero_id := hero_id, base_patch := base_patch,
           target_patch := target_patch,
           win_rate_change := target_rate - base_rate,
           confidence_interval := normUpperQuantile confidence_level *
             sqrtFn ((base_rate * (1 - base_rate)) / (base_total : ℚ) +
               (target_rate * (1 - target_rate)) / (target_total : ℚ)),
           p_value := zp.2,
           significant := decide (zp.2 < 1 - confidence_level) }

/-- Embedding of the commented-out revision of
`calculate_patch_impact` (`schema/onto/models.py`): identical to the
live one except that a zero total in either patch short-circuits to a
neutral zero-effect report before any division or z-test. -/
def calculate_patch_impact_onto (ztest : ℤ → ℤ → ℤ → ℤ → ℚ × ℚ)
    (normUpperQuantile sqrtFn : ℚ → ℚ) (hero_id : ℤ)
    (base_patch target_patch : String) (confidence_level : ℚ)
    (base_data target_data : List (ℤ × ℤ)) : PatchImpactReport :=
  let base_wins : ℤ := (base_data.map (fun r => r.1)).sum
  let base_total : ℤ := (base_data.map (fun r => r.2)).sum
  let target_wins : ℤ := (target_data.map (fun r => r.1)).sum
  let target_total : ℤ := (target_data.map (fun r => r.2)).sum
  if base_total = 0 ∨ target_total = 0 then
    { hero_id := hero_id, base_patch := base_patch,
      target_patch := target_patch, win_rate_change := 0,
      confidence_interval := 0, p_value := 1, significant := false }
  else
    let base_win_rate := (base_wins : ℚ) / (base_total : ℚ)
    let target_win_rate := (target_wins : ℚ) / (target_total : ℚ)
    let zp := ztest base_wins target_wins base_total target_total
    { hero_id := hero_id, base_patch := base_patch,
      target_patch := target_patch,
      win_rate_change := target_win_rate - base_win_rate,
      confidence_interval := normUpperQuantile confidence_level *
        sqrtFn ((base_win_rate * (1 - base_win_rate)) / (base_total : ℚ) +
          (target_win_rate * (1 - target_win_rate)) / (target_total : ℚ)),
      p_value := zp.2,
      significant := decide (zp.2 < 1 - confidence_level) }

/-! ## Component 8 — wiki-client request cache
(`scripts/wikisraper.py`, `LiquidpediaClient._get_cache_path` /
`_get_from_cache` / `_save_to_cache` / `_get`).  A request parameter
map is an insertion-ordered association list of JSON values (strings
and integers here).  `_get_cache_path` hashes
`json.dumps(params, sort_keys=True)`; since that rendering is
injective on parameter maps, the cache key is modeled as the
key-sorted association list itself, and the cache-file directory as a
function from keys to optionally stored responses. -/

/-- JSON parameter value: the wiki client uses strings and integers. -/
inductive PVal
  | str (s : String)
  | int (n : ℤ)
deriving DecidableEq

/-- A Python `dict` of request parameters, insertion-ordered. -/
abbrev Params := List (String × PVal)

/-- The key list of a parameter map. -/
def paramKeys (ps : Params) : List String := ps.map (fun p => p.1)

/-- `params.update({"format": "json", "formatversion": 2, "maxlag":
self.maxlag})` as executed by `_get` after the cache lookup. -/
def augmentParams (maxlag : ℤ) (ps : Params) : Params :=
  assocSet (assocSet (assocSet ps "format" (PVal.str "json"))
    "formatversion" (PVal.int 2)) "maxlag" (PVal.int maxlag)

instance : DecidableRel (fun (a b : String × PVal) => a.1 ≤ b.1) :=
  fun a b => inferInstanceAs (Decidable (a.1 ≤ b.1))

/-- The canonical cache key of `_get_cache_path`: the parameter map
sorted by key (`json.dumps(..., sort_keys=True)` before hashing). -/
def cacheKeyOf (ps : Params) : Params :=
  ps.insertionSort (fun a b => a.1 ≤ b.1)

/-- The cache directory as a map from cache keys to stored responses;
initially empty. -/
def emptyCache {Data : Type} : Params → Option Data := fun _ => none

/-- `_save_to_cache(params, data)`: store `data` under the cache key
of `params`. -/
def saveToCache {Data : Type} (store : Params → Option Data)
    (ps : Params) (d : Data) : Params → Option Data :=
  fun k => if k = cacheKeyOf ps then some d else store k

/-- `_get_from_cache(params)`: read the entry stored under the cache
key of `params` (file-validity and JSON-decoding concerns aside). -/
def cacheLookup {Data : Type} (store : Params → Option Data)
    (ps : Params) : Option Data :=
  store (cacheKeyOf ps)

/-! ## Component 9 — graph export (`scripts/transform.py`,
`DotaMatch.to_graph_nodes` / `to_graph_edges` / `export_to_graph`).
The Python node key is the string `f"<kind>_<id>"`; since the kind
strings contain no digits or underscores-before-digits ambiguity, that
formatting is injective in the (kind, id) pair, and the key is modeled
as the pair itself with `renderGKey` giving its string rendering. -/

/-- A graph node key: the kind string and the entity id that Python
renders as `"<kind>_<id>"`. -/
abbrev GKey := String × ℤ

/-- The string form of a node key, `f"<kind>_<id>"`. -/
def renderGKey (k : GKey) : String := k.1 ++ "_" ++ toString k.2

/-- Node payloads of `to_graph_nodes`.  The match node carries the
match attributes (start/end kept as the raw Unix timestamps; Python
renders them through `datetime.fromtimestamp(..).isoformat()`, an
injective rendering outside the model); team / league / series nodes
carry `type` and `id` only. -/
inductive GNode
  | matchNode (id duration : ℤ) (start_time end_time : ℤ)
      (analysis_outcome : Option String) (first_blood_time : Option ℤ)
      (lobby_type game_mode : String) (game_version_id : ℤ)
  | teamNode (id : ℤ)
  | leagueNode (id : ℤ)
  | seriesNode (id : ℤ)
deriving DecidableEq

/-- The `type` field of a node dict. -/
def GNode.kind : GNode → String
  | .matchNode .. => "match"
  | .teamNode _ => "team"
  | .leagueNode _ => "league"
  | .seriesNode _ => "series"

/-- The `id` field of a node dict. -/
def GNode.nodeId : GNode → ℤ
  | .matchNode i _ _ _ _ _ _ _ _ => i
  | .teamNode i => i
  | .leagueNode i => i
  | .seriesNode i => i

/-- One conditional block of `to_graph_nodes`: `if self.<fk>:` adds a
node keyed `(kind, id)` when the optional id is truthy. -/
def addNodeIfTruthy (nodes : List (GKey × GNode)) (o : Option ℤ)
    (kind : String) (mk : ℤ → GNode) : List (GKey × GNode) :=
  if optIntTruthy o then assocSet nodes (kind, o.getD 0) (mk (o.getD 0))
  else nodes

/-- Embedding of `DotaMatch.to_graph_nodes`: the match node, then —
for each truthy foreign key, in source order — the radiant team, dire
team, league and series nodes. -/
def to_graph_nodes (m : DotaMatch) : List (GKey × GNode) :=
  let nodes := assocSet ([] : List (GKey × GNode)) ("match", m.id)
    (GNode.matchNode m.id m.duration_seconds m.start_date_time
      m.end_date_time m.analysis_outcome m.first_blood_time
      m.lobby_type m.game_mode m.game_version_id)
  let nodes := addNodeIfTruthy nodes m.radiant_team_id "team" GNode.teamNode
  let nodes := addNodeIfTruthy nodes m.dire_team_id "team" GNode.teamNode
  let nodes := addNodeIfTruthy nodes m.league_id "league" GNode.leagueNode
  addNodeIfTruthy nodes m.series_id "series" GNode.seriesNode

/-- Edge dicts of `to_graph_edges`: team participation with side,
result and decoded structure statuses, or containment. -/
inductive GEdge
  | participated (source target : GKey) (side result : String)
      (tower_status : TowerFlags) (barracks_status : BarracksFlags)
  | partOf (source target : GKey)
deriving DecidableEq

/-- Embedding of `DotaMatch.to_graph_edges`: a `PARTICIPATED_IN` edge
per truthy team id (radiant result "won" exactly when
`did_radiant_win`, dire symmetric), a match-to-series `PART_OF` edge
for a truthy series id, and a series-to-league `PART_OF` edge when
both series and league ids are truthy. -/
def to_graph_edges (m : DotaMatch) : List GEdge :=
  (if optIntTruthy m.radiant_team_id then
    [GEdge.participated ("team", m.radiant_team_id.getD 0)
      ("match", m.id) "radiant"
      (if m.did_radiant_win then "won" else "lost")
      (decode_tower_status m true) (decode_barracks_status m true)]
  else []) ++
  (if optIntTruthy m.dire_team_id then
    [GEdge.participated ("team", m.dire_team_id.getD 0)
      ("match", m.id) "dire"
      (if m.did_radiant_win then "lost" else "won")
      (decode_tower_status m false) (decode_barracks_status m false)]
  else []) ++
  (if optIntTruthy m.series_id then
    [GEdge.partOf ("match", m.id) ("series", m.series_id.getD 0)]
  else []) ++
  (if optIntTruthy m.series_id && optIntTruthy m.league_id then
    [GEdge.partOf ("series", m.series_id.getD 0)
      ("league", m.league_id.getD 0)]
  else [])

/-- Embedding of `export_to_graph(session, "dict")`: the node dict is
the union (`dict.update`) of every match's nodes, the edge list the
concatenation of every match's edges, in session order. -/
def export_to_graph_dict (session : List DotaMatch) :
    List (GKey × GNode) × List GEdge :=
  (session.foldl
    (fun nodes m =>
      (to_graph_nodes m).foldl (fun d e => assocSet d e.1 e.2) nodes) [],
   session.foldl (fun edges m => edges ++ to_graph_edges m) [])

/-- Number of node-dict entries of a given kind. -/
def countNodesOfKind (nodes : List (GKey × GNode)) (kind : String) : ℕ :=
  (nodes.filter (fun e => e.2.kind == kind)).length

/-- A single match whose radiant and dire team ids coincide — both
non-null — with non-null series and league ids. -/
def dupTeamMatch : DotaMatch :=
  { id := 1, did_radiant_win := true, duration_seconds := 1800,
    start_date_time := 0, end_date_time := 1800,
    tower_status_radiant := 0, tower_status_dire := 0,
    barracks_status_radiant := 0, barracks_status_dire := 0,
    first_blood_time := some 30, lobby_type := "1", game_mode := "2",
    game_version_id := 5, radiant_networth_leads := none,
    radiant_experience_leads := none, analysis_outcome := none,
    league_id := some 4, series_id := some 3,
    radiant_team_id := some 7, dire_team_id := some 7 }

/-- A single match with distinct non-null team ids and non-null
series and league ids. -/
def normalMatch : DotaMatch :=
  { id := 1, did_radiant_win := true, duration_seconds := 1800,
    start_date_time := 0, end_date_time := 1800,
    tower_status_radiant := 2047, tower_status_dire := 0,
    barracks_status_radiant := 63, barracks_status_dire := 0,
    first_blood_time := some 30, lobby_type := "1", game_mode := "2",
    game_version_id := 5, radiant_networth_leads := none,
    radiant_experience_leads := none, analysis_outcome := none,
    league_id := some 4, series_id := some 3,
    radiant_team_id := some 7, dire_team_id := some 8 }

/-! ## Component 20 — intraclass correlation (`test-cases/query.py`,
`calculate_icc`).  The scipy F-distribution upper tail
(`stats.f.cdf`) is an external library call, taken as a function
parameter (applied to `none` it stands for `cdf` at `float('inf')`).
The two input lists are grouped exactly as the Python loop does:
group labels in first-occurrence order, each holding its values in
input order. -/

/-- First-occurrence-ordered distinct labels, the key order of the
Python `group_dict`. -/
def firstOccur (seen : List ℤ) : List ℤ → List ℤ
  | [] => []
  | g :: gs =>
    if g ∈ seen then firstOccur seen gs else g :: firstOccur (g :: seen) gs

/-- The values appended under label `g` by the grouping loop. -/
def groupVals (pairs : List (ℤ × ℚ)) (g : ℤ) : List ℚ :=
  (pairs.filter (fun p => p.1 == g)).map (fun p => p.2)

/-- The `(group, data[i])` pairs enumerated by the grouping loop. -/
def iccPairs (data : List ℚ) (groups : List ℤ) : List (ℤ × ℚ) :=
  groups.zip data

/-- `valid_groups`: labels with at least two observations, in
first-occurrence order. -/
def iccValidGroups (data : List ℚ) (groups : List ℤ) : List ℤ :=
  (firstOccur [] groups).filter
    (fun g => 2 ≤ (groupVals (iccPairs data groups) g).length)

/-- `n_groups = len(valid_groups)`. -/
def iccNGroups (data : List ℚ) (groups : List ℤ) : ℕ :=
  (iccValidGroups data groups).length

/-- `n_total = sum(group_sizes)`. -/
def iccNTotal (data : List ℚ) (groups : List ℤ) : ℕ :=
  ((iccValidGroups data groups).map
    (fun g => (groupVals (iccPairs data groups) g).length)).sum

/-- Every observation of every valid group, in group order — the
population over which `overall_mean` is taken. -/
def iccAllVals (data : List ℚ) (groups : List ℤ) : List ℚ :=
  (iccValidGroups data groups).flatMap (groupVals (iccPairs data groups))

/-- `overall_mean`. -/
def iccOverallMean (data : List ℚ) (groups : List ℤ) : ℚ :=
  listMean (iccAllVals data groups)

/-- `between_ss = sum(size * (mean - overall_mean)**2)`. -/
def iccBetweenSS (data : List ℚ) (groups : List ℤ) : ℚ :=
  ((iccValidGroups data groups).map (fun g =>
    ((groupVals (iccPairs data groups) g).length : ℚ) *
      (listMean (groupVals (iccPairs data groups) g)
        - iccOverallMean data groups) ^ 2)).sum

/-- `within_ss = sum(sum((val - mean)**2 for val in vals))`. -/
def iccWithinSS (data : List ℚ) (groups : List ℤ) : ℚ :=
  ((iccValidGroups data groups).map (fun g =>
    (((groupVals (iccPairs data groups) g)).map (fun v =>
      (v - listMean (groupVals (iccPairs data groups) g)) ^ 2)).sum)).sum

/-- `between_ms = between_ss / (n_groups - 1) if n_groups > 1 else 0`. -/
def iccBetweenMS (data : List ℚ) (groups : List ℤ) : ℚ :=
  if 1 < iccNGroups data groups then
    iccBetweenSS data groups / ((iccNGroups data groups : ℚ) - 1)
  else 0

/-- `within_ms = within_ss / (n_total - n_groups) if n_total >
n_groups else 0`. -/
def iccWithinMS (data : List ℚ) (groups : List ℤ) : ℚ :=
  if iccNGroups data groups < iccNTotal data groups then
    iccWithinSS data groups /
      ((iccNTotal data groups : ℚ) - (iccNGroups data groups : ℚ))
  else 0

/-- The `(icc, f_value, p_value)` tuple returned by `calculate_icc`:
`none3` is `(None, None, None)`; in `res`, an `f` of `none` is
`float('inf')`. -/
inductive ICCResult
  | none3
  | res (icc : ℚ) (f : Option ℚ) (p : ℚ)
deriving DecidableEq

/-- Embedding of `calculate_icc` from `test-cases/query.py`: fewer
than two valid groups returns `(None, None, None)`; zero summed mean
squares returns `(0, 0, 1.0)`; otherwise the one-way random-effects
ICC with its F statistic (infinite when `within_ms` is 0) and the
upper-tail F p-value at `(n_groups - 1, n_total - n_groups)` degrees
of freedom. -/
def calculate_icc (fcdf : Option ℚ → ℕ → ℕ → ℚ) (data : List ℚ)
    (groups : List ℤ) : ICCResult :=
  if iccNGroups data groups < 2 then ICCResult.none3
  else if iccBetweenMS data groups + iccWithinMS data groups = 0 then
    ICCResult.res 0 (some 0) 1
  else
    let bms := iccBetweenMS data groups
    let wms := iccWithinMS data groups
    let icc := (bms - wms) /
      (bms + ((iccNTotal data groups : ℚ) / (iccNGroups data groups : ℚ)
        - 1) * wms)
    let f_value : Option ℚ := if 0 < wms then some (bms / wms) else none
    ICCResult.res icc f_value
      (1 - fcdf f_value (iccNGroups data groups - 1)
        (iccNTotal data groups - iccNGroups data groups))

/-- A degenerate stand-in for the external F-distribution CDF, used
only to instantiate concrete ICC computations. -/
def fcdfZero : Option ℚ → ℕ → ℕ → ℚ := fun _ _ _ => 0

/-- ICC input with a single (too small) collection of groups. -/
def iccDataOneGroup : List ℚ := [mkRat 1 1, mkRat 2 1]

/-- Group labels putting both observations in one group. -/
def iccGroupsOneGroup : List ℤ := [5, 5]

/-- ICC input where every observation is identical. -/
def iccDataConst : List ℚ := [mkRat 3 1, mkRat 3 1, mkRat 3 1, mkRat 3 1]

/-- Two groups of two observations each. -/
def iccGroupsTwo : List ℤ := [10, 10, 20, 20]

/-- ICC input with differing observations. -/
def iccDataVaried : List ℚ := [mkRat 1 1, mkRat 2 1, mkRat 1 1, mkRat 3 1]

/-- A flag computed as `bool(status & (1 << k))` is exactly the k-th
bit of the status word. -/
theorem bitFlag_eq_testBit (status k : ℕ) : bitFlag status k = status.testBit k := by
  unfold bitFlag
  rw [Nat.shiftLeft_eq, one_mul, Nat.and_two_pow]
  cases h : status.testBit k
  · simp [h]
  · simp [h]

/-! Claim theorems C3 and C4. -/

/-- C3: for every match-player row the impact score is the fixed
weighted combination of KDA `(kills+assists)/max(1,deaths)`, economy
`gpm/600`, damage `hero_damage/30000` and objective `tower_damage/10000`
(for role CORE) or healing `hero_healing/10000` (for any other role),
with weights 0.25/0.30/0.25/0.20 and 0.30/0.15/0.20/0.35 respectively;
the cited CORE row scores exactly 2.625. -/
theorem impact_score_formula (row : PlayerRow) :
    (row.role = "CORE" →
      calculate_impact_score row =
        0.25 * ((row.kills + row.assists) / max 1 row.deaths)
          + 0.3 * (row.gold_per_min / 600)
          + 0.25 * (row.hero_damage / 30000)
          + 0.2 * (row.tower_damage / 10000)) ∧
    (row.role ≠ "CORE" →
      calculate_impact_score row =
        0.3 * ((row.kills + row.assists) / max 1 row.deaths)
          + 0.15 * (row.gold_per_min / 600)
          + 0.2 * (row.hero_damage / 30000)
          + 0.35 * (row.hero_healing / 10000)) ∧
    calculate_impact_score
      { role := "CORE", kills := 10, deaths := 2, assists := 5,
        hero_damage := 30000, tower_damage := 10000, hero_healing := 0,
        gold_per_min := 600 } = 2.625 := by
  refine ⟨fun h => ?_, fun h => ?_, by norm_num [calculate_impact_score]⟩
  · simp [calculate_impact_score, h]
  · simp [calculate_impact_score, h]

/-- Witness for C3: the CORE hypothesis and the support hypothesis are
each satisfiable, at the spec's two concrete rows. -/
theorem impact_score_formula_witness :
    calculate_impact_score
      { role := "CORE", kills := 10, deaths := 2, assists := 5,
        hero_damage := 30000, tower_damage := 10000, hero_healing := 0,
        gold_per_min := 600 } =
      0.25 * ((10 + 5) / max 1 2) + 0.3 * (600 / 600)
        + 0.25 * (30000 / 30000) + 0.2 * (10000 / 10000) ∧
    calculate_impact_score
      { role := "HARD_SUPPORT", kills := 10, deaths := 2, assists := 5,
        hero_damage := 0, tower_damage := 0, hero_healing := 10000,
        gold_per_min := 0 } =
      0.3 * ((10 + 5) / max 1 2) + 0.15 * (0 / 600)
        + 0.2 * (0 / 30000) + 0.35 * (10000 / 10000) :=
  ⟨(impact_score_formula _).1 rfl, (impact_score_formula _).2.1 (by decide)⟩

/-- C4: every decoded tower flag is true exactly when its documented
bit is set (bits 0-2 bottom tiers 1-3, 3-5 mid, 6-8 top, 9-10 the two
tier-4 towers), and the two cited concrete decodings hold. -/
theorem decode_tower_status_bits (m : DotaMatch) (is_radiant : Bool) :
    ((decode_tower_status m is_radiant).tier1_bot
        = (towerStatusOf m is_radiant).testBit 0 ∧
      (decode_tower_status m is_radiant).tier2_bot
        = (towerStatusOf m is_radiant).testBit 1 ∧
      (decode_tower_status m is_radiant).tier3_bot
        = (towerStatusOf m is_radiant).testBit 2 ∧
      (decode_tower_status m is_radiant).tier1_mid
        = (towerStatusOf m is_radiant).testBit 3 ∧
      (decode_tower_status m is_radiant).tier2_mid
        = (towerStatusOf m is_radiant).testBit 4 ∧
      (decode_tower_status m is_radiant).tier3_mid
        = (towerStatusOf m is_radiant).testBit 5 ∧
      (decode_tower_status m is_radiant).tier1_top
        = (towerStatusOf m is_radiant).testBit 6 ∧
      (decode_tower_status m is_radiant).tier2_top
        = (towerStatusOf m is_radiant).testBit 7 ∧
      (decode_tower_status m is_radiant).tier3_top
        = (towerStatusOf m is_radiant).testBit 8 ∧
      (decode_tower_status m is_radiant).tier4_1
        = (towerStatusOf m is_radiant).testBit 9 ∧
      (decode_tower_status m is_radiant).tier4_2
        = (towerStatusOf m is_radiant).testBit 10) ∧
    decode_tower_status
      { id := 1, did_radiant_win := true, duration_seconds := 0,
        start_date_time := 0, end_date_time := 0,
        tower_status_radiant := 1, tower_status_dire := 0,
        barracks_status_radiant := 0, barracks_status_dire := 0,
        first_blood_time := none, lobby_type := "", game_mode := "",
        game_version_id := 0, radiant_networth_leads := none,
        radiant_experience_leads := none, analysis_outcome := none,
        league_id := none, series_id := none,
        radiant_team_id := none, dire_team_id := none } true =
      { tier1_bot := true, tier2_bot := false, tier3_bot := false,
        tier1_mid := false, tier2_mid := false, tier3_mid := false,
        tier1_top := false, tier2_top := false, tier3_top := false,
        tier4_1 := false, tier4_2 := false } ∧
    decode_tower_status
      { id := 1, did_radiant_win := true, duration_seconds := 0,
        start_date_time := 0, end_date_time := 0,
        tower_status_radiant := 1 <<< 9 ||| 1 <<< 10, tower_status_dire := 0,
        barracks_status_radiant := 0, barracks_status_dire := 0,
        first_blood_time := none, lobby_type := "", game_mode := "",
        game_version_id := 0, radiant_networth_leads := none,
        radiant_experience_leads := none, analysis_outcome := none,
        league_id := none, series_id := none,
        radiant_team_id := none, dire_team_id := none } true =
      { tier1_bot := false, tier2_bot := false, tier3_bot := false,
        tier1_mid := false, tier2_mid := false, tier3_mid := false,
        tier1_top := false, tier2_top := false, tier3_top := false,
        tier4_1 := true, tier4_2 := true } := by
  refine ⟨?_, by decide, by decide⟩
  simp [decode_tower_status, bitFlag_eq_testBit]

/-- C10: the lead accessors are total: they return `[]` when the
stored text is null or empty, and when the dynamic evaluation of the
stored text fails, and every returned pair has a time point of the
form `i*60` bounded by the match duration. -/
theorem lead_accessors_total (pyEval : String → Option (List ℤ))
    (m : DotaMatch) :
    ((m.radiant_networth_leads = none ∨ m.radiant_networth_leads = some "") →
      get_networth_leads pyEval m = []) ∧
    (∀ s, m.radiant_networth_leads = some s → pyEval s = none →
      get_networth_leads pyEval m = []) ∧
    (∀ p ∈ get_networth_leads pyEval m, p.1 ≤ m.duration_seconds) ∧
    ((m.radiant_experience_leads = none ∨ m.radiant_experience_leads = some "") →
      get_experience_leads pyEval m = []) ∧
    (∀ s, m.radiant_experience_leads = some s → pyEval s = none →
      get_experience_leads pyEval m = []) ∧
    (∀ p ∈ get_experience_leads pyEval m, p.1 ≤ m.duration_seconds) := by
  have core : ∀ (text : Option String) (dur : ℤ),
      ((text = none ∨ text = some "") → leadPairs pyEval text dur = []) ∧
      (∀ s, text = some s → pyEval s = none → leadPairs pyEval text dur = []) ∧
      (∀ p ∈ leadPairs pyEval text dur, p.1 ≤ dur) := by
    intro text dur
    refine ⟨?_, ?_, ?_⟩
    · rintro (rfl | rfl) <;> simp [leadPairs]
    · rintro s rfl hev
      by_cases hs : s = "" <;> simp [leadPairs, hs, hev]
    · intro p hp
      rcases text with _ | s
      · simp [leadPairs] at hp
      · by_cases hs : s = ""
        · simp [leadPairs, hs] at hp
        · rcases hev : pyEval s with _ | leads
          · simp [leadPairs, hs, hev] at hp
          · have he : leadPairs pyEval (some s) dur =
                (leads.enum.filter
                    (fun q => decide ((q.1 : ℤ) * 60 ≤ dur))).map
                  (fun q => ((q.1 : ℤ) * 60, q.2)) := by
              simp [leadPairs, hs, hev]
            rw [he] at hp
            simp only [List.mem_map, List.mem_filter] at hp
            obtain ⟨q, ⟨-, hq⟩, rfl⟩ := hp
            exact of_decide_eq_true hq
  exact ⟨(core _ _).1, (core _ _).2.1, (core _ _).2.2,
    (core _ _).1, (core _ _).2.1, (core _ _).2.2⟩

/-- Witness for C10: at a concrete match, the empty-field case returns
`[]` and a concrete returned pair respects the duration bound. -/
theorem lead_accessors_total_witness :
    get_experience_leads sampleLeadEval sampleLeadMatch = [] ∧
    ((60 : ℤ), (7 : ℤ)) ∈ get_networth_leads sampleLeadEval sampleLeadMatch ∧
    (60 : ℤ) ≤ sampleLeadMatch.duration_seconds := by
  refine ⟨(lead_accessors_total sampleLeadEval sampleLeadMatch).2.2.2.1
      (Or.inl rfl), by decide,
    (lead_accessors_total sampleLeadEval sampleLeadMatch).2.2.1
      ((60 : ℤ), (7 : ℤ)) (by decide)⟩

/-- C6 counterexample: at a zero TTL the claim fails on both
functions.  With `cache_ttl = 0` and a file whose modification time is
exactly `now - ttl` (= `now`), the claim says the entry is invalid in
both functions (boundary clause) yet also valid (its
non-positive-expiry clause); the code has `_is_cache_valid` treat it
as valid (never-expires rule) while `scrape_with_cache` treats it as
invalid (no such rule), so the claimed validity condition is wrong for
each function at this input. -/
theorem cache_ttl_claim_counterexample :
    is_cache_valid true 0 0 0 = true ∧ scrapeCacheValid true 0 0 0 = false := by
  constructor
  · simp [is_cache_valid]
  · simp [scrapeCacheValid]

/-- C6 amended: `_is_cache_valid` holds exactly when the expiry is
non-positive or the file age is strictly below it, while
`scrape_with_cache` uses only the strict age test with no
never-expires rule; for a strictly positive TTL, a file at exactly
`now - ttl` is invalid and a file at `now - ttl + 1` is valid in both
functions, and a missing file is always invalid. -/
theorem cache_ttl_boundary (cache_expiry mtime now ttl : ℚ) :
    (is_cache_valid true cache_expiry mtime now
      = (decide (cache_expiry ≤ 0) || decide (now - mtime < cache_expiry))) ∧
    (scrapeCacheValid true ttl mtime now = decide (now - mtime < ttl)) ∧
    (0 < ttl →
      is_cache_valid true ttl (now - ttl) now = false ∧
      scrapeCacheValid true ttl (now - ttl) now = false ∧
      is_cache_valid true ttl (now - ttl + 1) now = true ∧
      scrapeCacheValid true ttl (now - ttl + 1) now = true) ∧
    is_cache_valid false cache_expiry mtime now = false := by
  refine ⟨?_, ?_, fun h => ⟨?_, ?_, ?_, ?_⟩, ?_⟩
  · by_cases he : cache_expiry ≤ 0 <;> simp [is_cache_valid, he]
  · simp [scrapeCacheValid]
  · simp [is_cache_valid, not_le.mpr h]
  · simp [scrapeCacheValid]
  · simp [is_cache_valid, not_le.mpr h]; linarith
  · simp [scrapeCacheValid]; linarith
  · simp [is_cache_valid]

/-- Witness for C6 amended: the positive-TTL boundary hypothesis holds
at `ttl = 5`, `now = 10`, where the file at modification time 5 is
invalid in both functions and the file at 6 is valid in both. -/
theorem cache_ttl_boundary_witness :
    (0 : ℚ) < 5 ∧
    is_cache_valid true 5 (10 - 5) 10 = false ∧
    scrapeCacheValid true 5 (10 - 5) 10 = false ∧
    is_cache_valid true 5 (10 - 5 + 1) 10 = true ∧
    scrapeCacheValid true 5 (10 - 5 + 1) 10 = true :=
  ⟨by norm_num,
   ((cache_ttl_boundary 5 5 10 5).2.2.1 (by norm_num)).1,
   ((cache_ttl_boundary 5 5 10 5).2.2.1 (by norm_num)).2.1,
   ((cache_ttl_boundary 5 5 10 5).2.2.1 (by norm_num)).2.2.1,
   ((cache_ttl_boundary 5 5 10 5).2.2.1 (by norm_num)).2.2.2⟩

/-- C7: the client-constructed limiter has maximum rate five times its
base rate and starts at the base rate with threshold 3; from any state
with a clear error counter at that threshold, three consecutive
`error()` calls leave the rate unchanged twice and then multiply it by
the backoff factor 1.5 exactly once, capped at the maximum rate, and
reset the counter; any `success()` call resets the counter and, when
the current rate is above base, multiplies it by the recovery factor
0.9 floored at the base rate (so it never drops below base). -/
theorem rate_limiter_escalation_recovery (q : ℚ) (s : RateLimiter)
    (hc : s.error_count = 0) (ht : s.error_threshold = 3)
    (hbf : s.backoff_factor = 1.5) :
    ((clientRateLimiter q).max_rate = q * 5 ∧
      (clientRateLimiter q).current_rate = q ∧
      (clientRateLimiter q).base_rate = q ∧
      (clientRateLimiter q).error_count = 0 ∧
      (clientRateLimiter q).error_threshold = 3 ∧
      (clientRateLimiter q).backoff_factor = 1.5 ∧
      (clientRateLimiter q).recovery_factor = 0.9) ∧
    (s.error.current_rate = s.current_rate ∧
      s.error.error.current_rate = s.current_rate ∧
      s.error.error.error.current_rate = min s.max_rate (s.current_rate * 1.5) ∧
      s.error.error.error.error_count = 0) ∧
    (∀ t : RateLimiter, t.recovery_factor = 0.9 →
      (t.success.error_count = 0 ∧
        (t.current_rate > t.base_rate →
          t.success.current_rate = max t.base_rate (t.current_rate * 0.9) ∧
          t.base_rate ≤ t.success.current_rate) ∧
        (¬ t.current_rate > t.base_rate →
          t.success.current_rate = t.current_rate))) := by
  refine ⟨⟨rfl, rfl, rfl, rfl, rfl, rfl, rfl⟩, ?_, ?_⟩
  · simp only [RateLimiter.error, hc, ht, hbf]
    norm_num
  · intro t hrec
    by_cases hgt : t.current_rate > t.base_rate
    · refine ⟨?_, fun _ => ⟨?_, ?_⟩, fun h => absurd hgt h⟩
      · simp [RateLimiter.success, hgt]
      · simp [RateLimiter.success, hgt, hrec]
      · simp [RateLimiter.success, hgt, hrec]
    · refine ⟨?_, fun h => absurd h hgt, fun _ => ?_⟩
      · simp [RateLimiter.success, hgt]
      · simp [RateLimiter.success, hgt]

/-- Witness for C7: at a client limiter with base rate 2 (max rate 10),
three errors escalate the rate to `min 10 3 = 3` and reset the
counter, and a subsequent success recovers toward base. -/
theorem rate_limiter_escalation_recovery_witness :
    (clientRateLimiter 2).error.error.error.current_rate = 3 ∧
    (clientRateLimiter 2).error.error.error.error_count = 0 ∧
    (clientRateLimiter 2).error.error.error.success.error_count = 0 ∧
    (clientRateLimiter 2).error.error.error.success.current_rate = 27 / 10 := by
  have h := rate_limiter_escalation_recovery 2 (clientRateLimiter 2) rfl rfl rfl
  have h3 : (clientRateLimiter 2).error.error.error.current_rate = 3 := by
    rw [h.2.1.2.2.1]; norm_num [clientRateLimiter, mkRateLimiter]
  have hsucc := h.2.2 (clientRateLimiter 2).error.error.error rfl
  refine ⟨h3, h.2.1.2.2.2, hsucc.1, ?_⟩
  have hgt : (clientRateLimiter 2).error.error.error.current_rate
      > (clientRateLimiter 2).error.error.error.base_rate := by
    rw [h3]; norm_num [RateLimiter.error, clientRateLimiter, mkRateLimiter]
  rw [(hsucc.2.1 hgt).1, h3]
  norm_num [RateLimiter.error, clientRateLimiter, mkRateLimiter]

/-- C1 counterexample: with candidate items of win rates 0.6/0.5/0.4,
costs 1000/2000/3000 and `maxCost` 1500, only item 1 survives, and the
code reports an expected win rate of `0.6 / 6 = 0.1` — the sum of the
surviving win rates divided by the constant 6 — not the mean 0.6 of
the items actually present that the claim states. -/
theorem resolve_optimal_build_counterexample :
    (resolve_optimal_build exampleItemCosts exampleHeroItems
        exampleConstraints).items = [1] ∧
    (resolve_optimal_build exampleItemCosts exampleHeroItems
        exampleConstraints).expected_win_rate = 1 / 10 ∧
    (1 : ℚ) / 10 ≠ 3 / 5 := by
  have hsorted : (exampleHeroItems.filter
      (buildItemKept exampleItemCosts exampleConstraints)).insertionSort
      (fun a b => b.2 ≤ a.2) = [(1, mkRat 3 5)] := by decide
  refine ⟨by decide, ?_, by norm_num⟩
  simp only [resolve_optimal_build, hsorted]
  rw [Rat.mkRat_eq_divInt, Rat.divInt_eq_div]
  norm_num

/-- C1 amended: the resolver keeps only candidate items that pass the
cost bound (when a truthy `maxCost` is given) and are not forbidden,
returns at most 6 item ids taken from the surviving items sorted by
win rate descending, reports an expected win rate equal to the sum of
the win rates of the (up to 6) taken items divided by the constant 6 —
0 if no items remain — and a fixed timing-efficiency score of 0.8. -/
theorem resolve_optimal_build_resolution (items_table : List (ℤ × ℤ))
    (hero_items : List (ℤ × ℚ)) (c : BuildConstraints) :
    ((resolve_optimal_build items_table hero_items c).items.length ≤ 6) ∧
    (∀ i ∈ (resolve_optimal_build items_table hero_items c).items,
      (∀ mc, c.maxCost = some mc → mc ≠ 0 →
        get_item_cost items_table i ≤ mc) ∧
      (∀ fl, c.forbiddenItems = some fl → i ∉ fl)) ∧
    ((resolve_optimal_build items_table hero_items c).expected_win_rate =
      if (hero_items.filter (buildItemKept items_table c)).isEmpty then 0
      else ((((hero_items.filter (buildItemKept items_table c)).insertionSort
          (fun a b => b.2 ≤ a.2)).take 6).map (fun item => item.2)).sum / 6) ∧
    (resolve_optimal_build items_table hero_items c).timing_efficiency
      = 0.8 := by
  refine ⟨?_, ?_, ?_, rfl⟩
  · calc (resolve_optimal_build items_table hero_items c).items.length
        = (((hero_items.filter (buildItemKept items_table c)).insertionSort
            (fun a b => b.2 ≤ a.2)).take 6).length := by
          simp [resolve_optimal_build]
      _ ≤ 6 := List.length_take_le 6 _
  · intro i hi
    simp only [resolve_optimal_build, List.mem_map] at hi
    obtain ⟨pair, hpair, rfl⟩ := hi
    have hsorted : pair ∈ (hero_items.filter
        (buildItemKept items_table c)).insertionSort (fun a b => b.2 ≤ a.2) :=
      List.mem_of_mem_take hpair
    have hfilter : pair ∈ hero_items.filter (buildItemKept items_table c) :=
      (List.mem_insertionSort _).mp hsorted
    have hkept : buildItemKept items_table c pair = true :=
      List.of_mem_filter hfilter
    unfold buildItemKept at hkept
    rw [Bool.and_eq_true, Bool.not_eq_true', Bool.not_eq_true'] at hkept
    constructor
    · intro mc hmc hnz
      have htr : optIntTruthy c.maxCost = true := by
        simp [optIntTruthy, hmc, hnz]
      rcases Bool.and_eq_false_iff.mp hkept.1 with h | h
      · exact absurd htr (by simp [h])
      · have := of_decide_eq_false h
        push_neg at this
        simpa [hmc] using this
    · intro fl hfl hmem
      rcases Bool.and_eq_false_iff.mp hkept.2 with h | h
      · have : fl.isEmpty = true := by
          simpa [optListTruthy, hfl] using h
        rw [List.isEmpty_iff] at this
        simp [this] at hmem
      · have := of_decide_eq_false h
        rw [hfl] at this
        exact this hmem
  · have hperm := List.perm_insertionSort
      (fun (a b : ℤ × ℚ) => b.2 ≤ a.2)
      (hero_items.filter (buildItemKept items_table c))
    have hemp : ((hero_items.filter (buildItemKept items_table c)).insertionSort
        (fun a b => b.2 ≤ a.2)).isEmpty
        = (hero_items.filter (buildItemKept items_table c)).isEmpty := by
      rw [Bool.eq_iff_iff, List.isEmpty_iff_length_eq_zero,
        List.isEmpty_iff_length_eq_zero, hperm.length_eq]
    simp only [resolve_optimal_build]
    rw [hemp]

/-- Witness for C1 amended: at the worked example the build has at
most 6 items, its member item 1 satisfies the cost bound, and the
timing-efficiency placeholder is 0.8. -/
theorem resolve_optimal_build_resolution_witness :
    (resolve_optimal_build exampleItemCosts exampleHeroItems
        exampleConstraints).items.length ≤ 6 ∧
    get_item_cost exampleItemCosts 1 ≤ 1500 ∧
    (resolve_optimal_build exampleItemCosts exampleHeroItems
        exampleConstraints).timing_efficiency = 0.8 := by
  have h := resolve_optimal_build_resolution exampleItemCosts
    exampleHeroItems exampleConstraints
  exact ⟨h.1, (h.2.1 1 (by decide)).1 1500 rfl (by decide), h.2.2.2⟩

/-- C2 counterexample: with zero recorded matches in both patches the
live `calculate_patch_impact` of `schema/models.py` does not return
the claimed neutral zero-effect report — its win-rate division is
unguarded and raises (result `none`), for any values of the external
statistical functions. -/
theorem calculate_patch_impact_counterexample :
    calculate_patch_impact (fun _ _ _ _ => (0, 1)) (fun _ => 0) (fun _ => 0)
      1 "7.34" "7.35" (mkRat 95 100) [] [] = none := rfl

/-- C2 amended: the neutral zero-effect report on a zero-match patch
(win_rate_change 0, confidence_interval 0, p_value 1.0, significant
False) is produced only by the commented-out `schema/onto/models.py`
revision; the live `schema/models.py` revision does not guard the
division and fails with a `ZeroDivisionError` whenever either patch
has zero recorded matches. -/
theorem patch_impact_zero_match_guard (ztest : ℤ → ℤ → ℤ → ℤ → ℚ × ℚ)
    (normUpperQuantile sqrtFn : ℚ → ℚ) (hero_id : ℤ)
    (base_patch target_patch : String) (confidence_level : ℚ)
    (base_data target_data : List (ℤ × ℤ))
    (h : (base_data.map (fun r => r.2)).sum = 0 ∨
      (target_data.map (fun r => r.2)).sum = 0) :
    calculate_patch_impact ztest normUpperQuantile sqrtFn hero_id
      base_patch target_patch confidence_level base_data target_data
      = none ∧
    calculate_patch_impact_onto ztest normUpperQuantile sqrtFn hero_id
      base_patch target_patch confidence_level base_data target_data
      = { hero_id := hero_id, base_patch := base_patch,
          target_patch := target_patch, win_rate_change := 0,
          confidence_interval := 0, p_value := 1,
          significant := false } := by
  constructor
  · simp only [calculate_patch_impact]
    rw [if_pos h]
  · simp only [calculate_patch_impact_onto]
    rw [if_pos h]

/-- Witness for C2 amended: a base patch with one zero-match row
satisfies the zero-total hypothesis, the live revision fails and the
commented revision returns the neutral report. -/
theorem patch_impact_zero_match_guard_witness :
    calculate_patch_impact (fun _ _ _ _ => (0, 1)) (fun _ => 0) (fun _ => 0)
      7 "7.34" "7.35" (mkRat 95 100) [(3, 0)] [(5, 10)] = none ∧
    calculate_patch_impact_onto (fun _ _ _ _ => (0, 1)) (fun _ => 0)
      (fun _ => 0) 7 "7.34" "7.35" (mkRat 95 100) [(3, 0)] [(5, 10)]
      = { hero_id := 7, base_patch := "7.34", target_patch := "7.35",
          win_rate_change := 0, confidence_interval := 0, p_value := 1,
          significant := false } :=
  patch_impact_zero_match_guard (fun _ _ _ _ => (0, 1)) (fun _ => 0)
    (fun _ => 0) 7 "7.34" "7.35" (mkRat 95 100) [(3, 0)] [(5, 10)]
    (Or.inl rfl)

/-- Dict assignment with a fresh key appends the pair. -/
theorem assocSet_of_not_mem {β : Type} (ps : List (String × β)) (k : String)
    (v : β) (h : k ∉ ps.map (fun p => p.1)) :
    assocSet ps k v = ps ++ [(k, v)] := by
  unfold assocSet
  rw [if_neg]
  intro hany
  rw [List.any_eq_true] at hany
  obtain ⟨p, hp, hpk⟩ := hany
  rw [beq_iff_eq] at hpk
  exact h (hpk ▸ List.mem_map_of_mem (fun p => p.1) hp)

/-- When the three fixed keys are absent, `_get`'s parameter update
appends three fresh pairs. -/
theorem augmentParams_eq_append (ps : Params) (maxlag : ℤ)
    (h1 : "format" ∉ paramKeys ps) (h2 : "formatversion" ∉ paramKeys ps)
    (h3 : "maxlag" ∉ paramKeys ps) :
    augmentParams maxlag ps = ps ++
      [("format", PVal.str "json"), ("formatversion", PVal.int 2),
        ("maxlag", PVal.int maxlag)] := by
  have h2a : "formatversion"
      ∉ (ps ++ [("format", PVal.str "json")]).map (fun p => p.1) := by
    simp only [List.map_append, List.mem_append]
    rintro (ha | hb)
    · exact h2 ha
    · simp at hb
  have h3a : "maxlag" ∉ (ps ++ [("format", PVal.str "json"),
      ("formatversion", PVal.int 2)]).map (fun p => p.1) := by
    simp only [List.map_append, List.mem_append]
    rintro (ha | hb)
    · exact h3 ha
    · simp at hb
  unfold augmentParams
  rw [assocSet_of_not_mem _ _ _ h1]
  rw [assocSet_of_not_mem _ _ _ h2a]
  rw [List.append_assoc]
  rw [assocSet_of_not_mem _ _ _ (by simpa using h3a)]
  simp

/-- C9: in `LiquidpediaClient._get` the cache lookup key is computed
from the caller's parameter map but the response is saved under the
key of the map augmented with `format`/`formatversion`/`maxlag`; for
any parameter map not already containing those keys the two cache
keys differ, so a response saved by one call is never found by the
lookup of a fresh identical call. -/
theorem get_cache_key_mismatch (ps : Params) (maxlag : ℤ)
    (h1 : "format" ∉ paramKeys ps) (h2 : "formatversion" ∉ paramKeys ps)
    (h3 : "maxlag" ∉ paramKeys ps) :
    cacheKeyOf (augmentParams maxlag ps) ≠ cacheKeyOf ps ∧
    ∀ (Data : Type) (d : Data),
      cacheLookup (saveToCache emptyCache (augmentParams maxlag ps) d) ps
        = none := by
  have haug := augmentParams_eq_append ps maxlag h1 h2 h3
  have hne : cacheKeyOf (augmentParams maxlag ps) ≠ cacheKeyOf ps := by
    intro he
    have hmem : ("format", PVal.str "json")
        ∈ cacheKeyOf (augmentParams maxlag ps) := by
      unfold cacheKeyOf
      rw [List.mem_insertionSort, haug]
      simp
    rw [he] at hmem
    have hps : ("format", PVal.str "json") ∈ ps :=
      (List.mem_insertionSort _).mp hmem
    exact h1 (List.mem_map_of_mem (fun p => p.1) hps)
  refine ⟨hne, fun Data d => ?_⟩
  unfold cacheLookup saveToCache
  rw [if_neg (fun he => hne he.symm)]
  rfl

/-- Witness for C9: the `allpages` listing request contains none of
the three fixed keys, and the response saved by its first execution is
invisible to the lookup of an identical second call. -/
theorem get_cache_key_mismatch_witness :
    ("format" ∉ paramKeys
        [("action", PVal.str "query"), ("list", PVal.str "allpages"),
          ("aplimit", PVal.str "max")]) ∧
    ("formatversion" ∉ paramKeys
        [("action", PVal.str "query"), ("list", PVal.str "allpages"),
          ("aplimit", PVal.str "max")]) ∧
    ("maxlag" ∉ paramKeys
        [("action", PVal.str "query"), ("list", PVal.str "allpages"),
          ("aplimit", PVal.str "max")]) ∧
    cacheLookup
      (saveToCache emptyCache
        (augmentParams 5
          [("action", PVal.str "query"), ("list", PVal.str "allpages"),
            ("aplimit", PVal.str "max")]) (37 : ℕ))
      [("action", PVal.str "query"), ("list", PVal.str "allpages"),
        ("aplimit", PVal.str "max")] = none :=
  ⟨by decide, by decide, by decide,
   (get_cache_key_mismatch
      [("action", PVal.str "query"), ("list", PVal.str "allpages"),
        ("aplimit", PVal.str "max")] 5
      (by decide) (by decide) (by decide)).2 ℕ 37⟩

/-- C8 counterexample: a session with a single match whose radiant and
dire team ids are both non-null but equal yields one team node, not
the two the claim requires (the node dict is keyed by
`"team_<id>"`, so the two sides collide). -/
theorem export_to_graph_counterexample :
    countNodesOfKind (export_to_graph_dict [dupTeamMatch]).1 "team" = 1 ∧
    (1 : ℕ) ≠ 2 := by
  constructor
  · decide
  · decide

/-- C8 amended: for a session with a single match whose radiant and
dire team ids are non-null, truthy (nonzero) and distinct and whose
series and league ids are non-null and truthy, the dict export yields
exactly the match node, the two team nodes, the league node and the
series node (one each, two team), the two `PARTICIPATED_IN` edges with
`result` "won"/"lost" per `did_radiant_win`, one match-to-series
`PART_OF` edge and one series-to-league `PART_OF` edge, and every node
is keyed by its synthetic `"<kind>_<id>"` id. -/
theorem export_to_graph_single_match (m : DotaMatch) (r d sid lid : ℤ)
    (hr : m.radiant_team_id = some r) (hr0 : r ≠ 0)
    (hd : m.dire_team_id = some d) (hd0 : d ≠ 0) (hrd : r ≠ d)
    (hs : m.series_id = some sid) (hs0 : sid ≠ 0)
    (hl : m.league_id = some lid) (hl0 : lid ≠ 0) :
    (export_to_graph_dict [m]).1 =
      [(("match", m.id), GNode.matchNode m.id m.duration_seconds
          m.start_date_time m.end_date_time m.analysis_outcome
          m.first_blood_time m.lobby_type m.game_mode m.game_version_id),
        (("team", r), GNode.teamNode r),
        (("team", d), GNode.teamNode d),
        (("league", lid), GNode.leagueNode lid),
        (("series", sid), GNode.seriesNode sid)] ∧
    (export_to_graph_dict [m]).2 =
      [GEdge.participated ("team", r) ("match", m.id) "radiant"
          (if m.did_radiant_win then "won" else "lost")
          (decode_tower_status m true) (decode_barracks_status m true),
        GEdge.participated ("team", d) ("match", m.id) "dire"
          (if m.did_radiant_win then "lost" else "won")
          (decode_tower_status m false) (decode_barracks_status m false),
        GEdge.partOf ("match", m.id) ("series", sid),
        GEdge.partOf ("series", sid) ("league", lid)] ∧
    countNodesOfKind (export_to_graph_dict [m]).1 "match" = 1 ∧
    countNodesOfKind (export_to_graph_dict [m]).1 "team" = 2 ∧
    countNodesOfKind (export_to_graph_dict [m]).1 "league" = 1 ∧
    countNodesOfKind (export_to_graph_dict [m]).1 "series" = 1 ∧
    (∀ e ∈ (export_to_graph_dict [m]).1,
      e.1 = (e.2.kind, e.2.nodeId) ∧
      renderGKey e.1 = e.2.kind ++ "_" ++ toString e.2.nodeId) := by
  have hnodes : (export_to_graph_dict [m]).1 =
      [(("match", m.id), GNode.matchNode m.id m.duration_seconds
          m.start_date_time m.end_date_time m.analysis_outcome
          m.first_blood_time m.lobby_type m.game_mode m.game_version_id),
        (("team", r), GNode.teamNode r),
        (("team", d), GNode.teamNode d),
        (("league", lid), GNode.leagueNode lid),
        (("series", sid), GNode.seriesNode sid)] := by
    simp [export_to_graph_dict, to_graph_nodes, addNodeIfTruthy,
      optIntTruthy, hr, hd, hl, hs, hr0, hd0, hs0, hl0, assocSet, hrd,
      Ne.symm hrd]
  have hedges : (export_to_graph_dict [m]).2 =
      [GEdge.participated ("team", r) ("match", m.id) "radiant"
          (if m.did_radiant_win then "won" else "lost")
          (decode_tower_status m true) (decode_barracks_status m true),
        GEdge.participated ("team", d) ("match", m.id) "dire"
          (if m.did_radiant_win then "lost" else "won")
          (decode_tower_status m false) (decode_barracks_status m false),
        GEdge.partOf ("match", m.id) ("series", sid),
        GEdge.partOf ("series", sid) ("league", lid)] := by
    simp [export_to_graph_dict, to_graph_edges, optIntTruthy,
      hr, hd, hl, hs, hr0, hd0, hs0, hl0]
  refine ⟨hnodes, hedges, ?_, ?_, ?_, ?_, ?_⟩
  · rw [hnodes]; simp [countNodesOfKind, GNode.kind]
  · rw [hnodes]; simp [countNodesOfKind, GNode.kind]
  · rw [hnodes]; simp [countNodesOfKind, GNode.kind]
  · rw [hnodes]; simp [countNodesOfKind, GNode.kind]
  · rw [hnodes]
    intro e he
    simp only [List.mem_cons, List.not_mem_nil, or_false] at he
    rcases he with rfl | rfl | rfl | rfl | rfl
    · exact ⟨rfl, rfl⟩
    · exact ⟨rfl, rfl⟩
    · exact ⟨rfl, rfl⟩
    · exact ⟨rfl, rfl⟩
    · exact ⟨rfl, rfl⟩

/-- Witness for C8 amended: a concrete single-match session with team
ids 7 and 8, series 3 and league 4 satisfies every hypothesis and
yields the claimed node counts. -/
theorem export_to_graph_single_match_witness :
    countNodesOfKind (export_to_graph_dict [normalMatch]).1 "match" = 1 ∧
    countNodesOfKind (export_to_graph_dict [normalMatch]).1 "team" = 2 ∧
    countNodesOfKind (export_to_graph_dict [normalMatch]).1 "league" = 1 ∧
    countNodesOfKind (export_to_graph_dict [normalMatch]).1 "series" = 1 := by
  have h := export_to_graph_single_match normalMatch 7 8 3 4 rfl
    (by decide) rfl (by decide) (by decide) rfl (by decide) rfl (by decide)
  exact ⟨h.2.2.1, h.2.2.2.1, h.2.2.2.2.1, h.2.2.2.2.2.1⟩

/-- A list of nonnegative rationals with zero sum is all zero. -/
theorem qsum_zero_of_nonneg {l : List ℚ} (h0 : ∀ x ∈ l, 0 ≤ x)
    (hs : l.sum = 0) : ∀ x ∈ l, x = 0 := by
  induction l with
  | nil => simp
  | cons a t ih =>
    rw [List.sum_cons] at hs
    have ha : 0 ≤ a := h0 a (List.mem_cons_self a t)
    have ht : 0 ≤ t.sum :=
      List.sum_nonneg (fun x hx => h0 x (List.mem_cons_of_mem a hx))
    have ha0 : a = 0 := by linarith
    have hts : t.sum = 0 := by linarith
    intro x hx
    rcases List.mem_cons.mp hx with rfl | hx
    · exact ha0
    · exact ih (fun y hy => h0 y (List.mem_cons_of_mem a hy)) hts x hx

/-- The sum of a constant list. -/
theorem qsum_of_all_eq {l : List ℚ} {c : ℚ} (h : ∀ x ∈ l, x = c) :
    l.sum = c * l.length := by
  induction l with
  | nil => simp
  | cons a t ih =>
    rw [List.sum_cons, ih (fun x hx => h x (List.mem_cons_of_mem a hx)),
      h a (List.mem_cons_self a t), List.length_cons]
    push_cast
    ring

/-- The mean of a nonempty constant list is that constant. -/
theorem listMean_of_all_eq {l : List ℚ} {c : ℚ} (hne : l ≠ [])
    (h : ∀ x ∈ l, x = c) : listMean l = c := by
  unfold listMean
  rw [qsum_of_all_eq h]
  have hl : (l.length : ℚ) ≠ 0 := by
    have := List.length_pos.mpr hne
    exact_mod_cast Nat.pos_iff_ne_zero.mp this
  field_simp

/-- A list of naturals each at least 2 sums to at least twice its
length. -/
theorem two_mul_length_le_sum {l : List ℕ} (h : ∀ x ∈ l, 2 ≤ x) :
    2 * l.length ≤ l.sum := by
  induction l with
  | nil => simp
  | cons a t ih =>
    rw [List.sum_cons, List.length_cons]
    have hha := h a (List.mem_cons_self a t)
    have hht := ih (fun x hx => h x (List.mem_cons_of_mem a hx))
    omega

/-- Every valid group holds at least two observations. -/
theorem iccValidGroups_two_le (data : List ℚ) (groups : List ℤ) :
    ∀ g ∈ iccValidGroups data groups,
      2 ≤ (groupVals (iccPairs data groups) g).length := by
  intro g hg
  unfold iccValidGroups at hg
  exact of_decide_eq_true (List.mem_filter.mp hg).2

/-- Observations of a valid group belong to the valid-group
population. -/
theorem iccMemAllVals (data : List ℚ) (groups : List ℤ) :
    ∀ g ∈ iccValidGroups data groups,
      ∀ v ∈ groupVals (iccPairs data groups) g,
        v ∈ iccAllVals data groups := by
  intro g hg v hv
  unfold iccAllVals
  exact List.mem_flatMap.mpr ⟨g, hg, hv⟩

/-- With at least two valid groups, the total observation count
strictly exceeds the group count. -/
theorem iccNGroups_lt_nTotal (data : List ℚ) (groups : List ℤ)
    (hk : 2 ≤ iccNGroups data groups) :
    iccNGroups data groups < iccNTotal data groups := by
  have hsizes : ∀ x ∈ (iccValidGroups data groups).map
      (fun g => (groupVals (iccPairs data groups) g).length), 2 ≤ x := by
    intro x hx
    obtain ⟨g, hg, rfl⟩ := List.mem_map.mp hx
    exact iccValidGroups_two_le data groups g hg
  have h2l := two_mul_length_le_sum hsizes
  rw [List.length_map] at h2l
  unfold iccNTotal
  unfold iccNGroups at hk ⊢
  omega

/-- C5: `calculate_icc` returns `(None, None, None)` whenever fewer
than 2 groups have at least 2 observations, returns `(0, 0, 1.0)`
whenever the total variance over the valid groups is zero (every
retained value identical), and otherwise returns
`ICC = (MS_between - MS_within) / (MS_between + (mean group size - 1)
* MS_within)` together with `F = MS_between / MS_within` (infinite
when `MS_within` is zero) and the upper-tail F p-value at
`(n_groups - 1, n_total - n_groups)` degrees of freedom. -/
theorem calculate_icc_spec (fcdf : Option ℚ → ℕ → ℕ → ℚ)
    (data : List ℚ) (groups : List ℤ) :
    (iccNGroups data groups < 2 →
      calculate_icc fcdf data groups = ICCResult.none3) ∧
    (2 ≤ iccNGroups data groups →
      (∀ x ∈ iccAllVals data groups, ∀ y ∈ iccAllVals data groups, x = y) →
      calculate_icc fcdf data groups = ICCResult.res 0 (some 0) 1) ∧
    (2 ≤ iccNGroups data groups →
      (∃ x ∈ iccAllVals data groups, ∃ y ∈ iccAllVals data groups, x ≠ y) →
      calculate_icc fcdf data groups = ICCResult.res
        ((iccBetweenMS data groups - iccWithinMS data groups) /
          (iccBetweenMS data groups +
            ((iccNTotal data groups : ℚ) / (iccNGroups data groups : ℚ)
              - 1) * iccWithinMS data groups))
        (if 0 < iccWithinMS data groups then
          some (iccBetweenMS data groups / iccWithinMS data groups)
        else none)
        (1 - fcdf
          (if 0 < iccWithinMS data groups then
            some (iccBetweenMS data groups / iccWithinMS data groups)
          else none)
          (iccNGroups data groups - 1)
          (iccNTotal data groups - iccNGroups data groups))) := by
  refine ⟨fun h => by simp [calculate_icc, h], fun hk hall => ?_,
    fun hk hne => ?_⟩
  · -- degenerate: every retained value identical
    have hk2 : ¬ iccNGroups data groups < 2 := not_lt.mpr hk
    have hμ : ∀ v ∈ iccAllVals data groups,
        v = iccOverallMean data groups := by
      intro v hv
      have hnil : iccAllVals data groups ≠ [] := by
        intro hnil
        rw [hnil] at hv
        exact absurd hv (List.not_mem_nil v)
      have := listMean_of_all_eq hnil (fun x hx => hall x hx v hv)
      unfold iccOverallMean
      exact this.symm
    have hgmean : ∀ g ∈ iccValidGroups data groups,
        listMean (groupVals (iccPairs data groups) g)
          = iccOverallMean data groups := by
      intro g hg
      have hlen := iccValidGroups_two_le data groups g hg
      have hgne : groupVals (iccPairs data groups) g ≠ [] := by
        intro hnil
        rw [hnil] at hlen
        simp at hlen
      exact listMean_of_all_eq hgne
        (fun x hx => hμ x (iccMemAllVals data groups g hg x hx))
    have hbss : iccBetweenSS data groups = 0 := by
      unfold iccBetweenSS
      apply List.sum_eq_zero
      intro x hx
      obtain ⟨g, hg, rfl⟩ := List.mem_map.mp hx
      rw [hgmean g hg]
      ring
    have hwss : iccWithinSS data groups = 0 := by
      unfold iccWithinSS
      apply List.sum_eq_zero
      intro x hx
      obtain ⟨g, hg, rfl⟩ := List.mem_map.mp hx
      apply List.sum_eq_zero
      intro y hy
      obtain ⟨v, hv, rfl⟩ := List.mem_map.mp hy
      rw [hgmean g hg, hμ v (iccMemAllVals data groups g hg v hv)]
      ring
    have hbms : iccBetweenMS data groups = 0 := by
      unfold iccBetweenMS
      rw [hbss]
      split <;> simp
    have hwms : iccWithinMS data groups = 0 := by
      unfold iccWithinMS
      rw [hwss]
      split <;> simp
    simp [calculate_icc, hk2, hbms, hwms]
  · -- non-degenerate: two retained values differ
    have hk2 : ¬ iccNGroups data groups < 2 := not_lt.mpr hk
    have hkpos : 1 < iccNGroups data groups := hk
    have hbss_nonneg : 0 ≤ iccBetweenSS data groups := by
      unfold iccBetweenSS
      apply List.sum_nonneg
      intro x hx
      obtain ⟨g, hg, rfl⟩ := List.mem_map.mp hx
      exact mul_nonneg (by positivity) (sq_nonneg _)
    have hwss_nonneg : 0 ≤ iccWithinSS data groups := by
      unfold iccWithinSS
      apply List.sum_nonneg
      intro x hx
      obtain ⟨g, hg, rfl⟩ := List.mem_map.mp hx
      apply List.sum_nonneg
      intro y hy
      obtain ⟨v, hv, rfl⟩ := List.mem_map.mp hy
      exact sq_nonneg _
    have hkcast : (1 : ℚ) < (iccNGroups data groups : ℚ) := by
      exact_mod_cast hkpos
    have hbms_nonneg : 0 ≤ iccBetweenMS data groups := by
      unfold iccBetweenMS
      rw [if_pos hkpos]
      exact div_nonneg hbss_nonneg (by linarith)
    have hwms_nonneg : 0 ≤ iccWithinMS data groups := by
      unfold iccWithinMS
      split
      · rename_i hlt
        have : (iccNGroups data groups : ℚ) < (iccNTotal data groups : ℚ) := by
          exact_mod_cast hlt
        exact div_nonneg hwss_nonneg (by linarith)
      · exact le_refl 0
    have hsum_ne : iccBetweenMS data groups + iccWithinMS data groups
        ≠ 0 := by
      intro hsum0
      obtain ⟨x, hx, y, hy, hxy⟩ := hne
      have hbms0 : iccBetweenMS data groups = 0 := by linarith
      have hwms0 : iccWithinMS data groups = 0 := by linarith
      have hbss0 : iccBetweenSS data groups = 0 := by
        unfold iccBetweenMS at hbms0
        rw [if_pos hkpos] at hbms0
        rcases div_eq_zero_iff.mp hbms0 with h | h
        · exact h
        · exact absurd h (by linarith)
      have hntot := iccNGroups_lt_nTotal data groups hk
      have hntotcast : (iccNGroups data groups : ℚ)
          < (iccNTotal data groups : ℚ) := by exact_mod_cast hntot
      have hwss0 : iccWithinSS data groups = 0 := by
        unfold iccWithinMS at hwms0
        rw [if_pos hntot] at hwms0
        rcases div_eq_zero_iff.mp hwms0 with h | h
        · exact h
        · exact absurd h (by linarith)
      have hgmean : ∀ g ∈ iccValidGroups data groups,
          listMean (groupVals (iccPairs data groups) g)
            = iccOverallMean data groups := by
        intro g hg
        have hterm := qsum_zero_of_nonneg
          (l := (iccValidGroups data groups).map (fun g =>
            ((groupVals (iccPairs data groups) g).length : ℚ) *
              (listMean (groupVals (iccPairs data groups) g)
                - iccOverallMean data groups) ^ 2))
          (fun z hz => by
            obtain ⟨g2, hg2, rfl⟩ := List.mem_map.mp hz
            exact mul_nonneg (by positivity) (sq_nonneg _)) hbss0
          _ (List.mem_map_of_mem _ hg)
        have hsz : ((groupVals (iccPairs data groups) g).length : ℚ)
            ≠ 0 := by
          have := iccValidGroups_two_le data groups g hg
          exact_mod_cast Nat.pos_iff_ne_zero.mp (by omega)
        rcases mul_eq_zero.mp hterm with h | h
        · exact absurd h hsz
        · have := sq_eq_zero_iff.mp h
          linarith
      have hvals : ∀ g ∈ iccValidGroups data groups,
          ∀ v ∈ groupVals (iccPairs data groups) g,
            v = listMean (groupVals (iccPairs data groups) g) := by
        intro g hg v hv
        have houter := qsum_zero_of_nonneg
          (l := (iccValidGroups data groups).map (fun g =>
            (((groupVals (iccPairs data groups) g)).map (fun v =>
              (v - listMean (groupVals (iccPairs data groups) g)) ^ 2)).sum))
          (fun z hz => by
            obtain ⟨g2, hg2, rfl⟩ := List.mem_map.mp hz
            apply List.sum_nonneg
            intro y2 hy2
            obtain ⟨w, hw, rfl⟩ := List.mem_map.mp hy2
            exact sq_nonneg _) hwss0
          _ (List.mem_map_of_mem _ hg)
        have hinner := qsum_zero_of_nonneg
          (fun y2 hy2 => by
            obtain ⟨w, hw, rfl⟩ := List.mem_map.mp hy2
            exact sq_nonneg _) houter
          _ (List.mem_map_of_mem _ hv)
        have := sq_eq_zero_iff.mp hinner
        linarith
      have hall : ∀ v ∈ iccAllVals data groups,
          v = iccOverallMean data groups := by
        intro v hv
        unfold iccAllVals at hv
        obtain ⟨g, hg, hvg⟩ := List.mem_flatMap.mp hv
        rw [hvals g hg v hvg, hgmean g hg]
      rw [hall x hx, hall y hy] at hxy
      exact hxy rfl
    simp only [calculate_icc]
    rw [if_neg hk2, if_neg hsum_ne]

/-- Witness for C5: one undersized group returns `(None, None, None)`;
two constant groups return `(0, 0, 1.0)`; two varied groups fall into
the general formula branch. -/
theorem calculate_icc_spec_witness :
    calculate_icc fcdfZero iccDataOneGroup iccGroupsOneGroup
      = ICCResult.none3 ∧
    calculate_icc fcdfZero iccDataConst iccGroupsTwo
      = ICCResult.res 0 (some 0) 1 ∧
    calculate_icc fcdfZero iccDataVaried iccGroupsTwo = ICCResult.res
      ((iccBetweenMS iccDataVaried iccGroupsTwo
          - iccWithinMS iccDataVaried iccGroupsTwo) /
        (iccBetweenMS iccDataVaried iccGroupsTwo +
          ((iccNTotal iccDataVaried iccGroupsTwo : ℚ) /
            (iccNGroups iccDataVaried iccGroupsTwo : ℚ) - 1) *
            iccWithinMS iccDataVaried iccGroupsTwo))
      (if 0 < iccWithinMS iccDataVaried iccGroupsTwo then
        some (iccBetweenMS iccDataVaried iccGroupsTwo /
          iccWithinMS iccDataVaried iccGroupsTwo)
      else none)
      (1 - fcdfZero
        (if 0 < iccWithinMS iccDataVaried iccGroupsTwo then
          some (iccBetweenMS iccDataVaried iccGroupsTwo /
            iccWithinMS iccDataVaried iccGroupsTwo)
        else none)
        (iccNGroups iccDataVaried iccGroupsTwo - 1)
        (iccNTotal iccDataVaried iccGroupsTwo
          - iccNGroups iccDataVaried iccGroupsTwo)) :=
  ⟨(calculate_icc_spec fcdfZero iccDataOneGroup iccGroupsOneGroup).1
      (by decide),
   (calculate_icc_spec fcdfZero iccDataConst iccGroupsTwo).2.1
      (by decide) (by decide),
   (calculate_icc_spec fcdfZero iccDataVaried iccGroupsTwo).2.2
      (by decide) (by decide)⟩
